import Mathlib

set_option allowUnsafeReducibility true in
attribute [semireducible] Rat.add Rat.sub Rat.mul Rat.div Rat.inv Rat.neg
  Rat.blt Rat.normalize Rat.maybeNormalize Nat.gcd

/-!
Shallow embedding, over ℚ, of the jamming/spoofing detection core of the
web-spectrum repository:

* `sdrplay-gps/gnss_sdr_bridge.py` — the streaming classifier
  (`GNSSJammingMetrics`), whose rolling history is kept in *class* variables
  (`GNSSJammingMetrics.cn0_history`, `.doppler_history`,
  `.cn0_correlation_history`); the embedding therefore threads one global
  `BridgeHistory` value through every classification call, exactly as the
  Python class attribute is one global list shared by all instances.

* `sdrplay-gps/gps_spectrum_analyzer.py` — the offline analyzer
  (`GPSSpectrumAnalyzer`): spectrogram framing/trimming and the five
  detectors (sweep, pulse, noise, narrowband, meaconing).

Floating-point arithmetic is modelled by exact rationals.  The only
non-algebraic operation the sources use is `x ** 0.5` (square root, inside
standard deviations) and, upstream of the noise/meaconing detectors,
`log10`/Welch PSD estimation; those are abstracted: square roots become an
explicit function parameter `sq : ℚ → ℚ` standing for the float `** 0.5`,
and the meaconing/noise decision logic is embedded from the point in the
source where the dB quantities have been formed.
-/

namespace WebSpectrum

/-! ### Generic numeric helpers mirroring the numpy operations used -/

/-- Mean of a list, `sum(values) / len(values)`; division by zero yields 0 in
ℚ (the sources always guard the empty case before dividing). -/
def listMean (l : List ℚ) : ℚ := l.sum / (l.length : ℚ)

/-- Population variance `sum((x - mean) ** 2) / len`, as computed by
`_calculate_std` and `np.var`/`np.std` (ddof = 0). -/
def listVariance (l : List ℚ) : ℚ :=
  (l.map (fun x => (x - listMean l) ^ 2)).sum / (l.length : ℚ)

/-- Minimum of a list (`min(values)`); 0 on the empty list, which the
sources guard against. -/
def listMin (l : List ℚ) : ℚ := l.foldl min (l.headD 0)

/-- Maximum of a list (`max(values)` / `np.max`); 0 on the empty list. -/
def listMax (l : List ℚ) : ℚ := l.foldl max (l.headD 0)

/-- First index of the maximum value, as `np.argmax` (first occurrence wins;
0 on the empty list, which numpy instead rejects). -/
def argmaxIdx (l : List ℚ) : ℕ :=
  (l.enum.foldl (fun best p => if l.getD best 0 < p.2 then p.1 else best) 0)

/-- Python `int(q)`: truncation toward zero. -/
def pyInt (q : ℚ) : ℤ := Int.tdiv q.num (q.den : ℤ)

/-- First differences, `np.diff`. -/
def npDiff (l : List ℚ) : List ℚ := List.zipWith (fun a b => b - a) l l.tail

/-- Linear-interpolation percentile, as `np.percentile(l, q)` with the
default interpolation: position `q/100 * (n-1)` in the ascending sort,
interpolating between the two neighbouring order statistics. -/
def npPercentile (l : List ℚ) (q : ℚ) : ℚ :=
  let s := l.insertionSort (· ≤ ·)
  let n := l.length
  if n = 0 then 0
  else
    let pos : ℚ := q / 100 * ((n : ℚ) - 1)
    let i : ℕ := (pyInt pos).toNat
    let frac : ℚ := pos - (i : ℚ)
    let a := s.getD i 0
    let b := s.getD (i + 1) a
    a + frac * (b - a)

/-- Median as `np.median`: middle order statistic, or the mean of the two
middle ones for even length. -/
def npMedian (l : List ℚ) : ℚ :=
  let s := l.insertionSort (· ≤ ·)
  let n := l.length
  if n = 0 then 0
  else if n % 2 = 1 then s.getD (n / 2) 0
  else (s.getD (n / 2 - 1) 0 + s.getD (n / 2) 0) / 2

/-- Centered moving average: `np.convolve(x, np.ones(w)/w, mode='same')`.
Output index `j` is the mean (over `w`) of the input window ending at
full-convolution index `j + (w-1)/2`, windows clipped at the array edges
(zero padding). -/
def convolveSameOnes (x : List ℚ) (w : ℕ) : List ℚ :=
  (List.range x.length).map (fun j =>
    let k := j + (w - 1) / 2
    let lo := k + 1 - w
    (((x.drop lo).take (k + 1 - lo)).sum) / (w : ℚ))

/-- Least-squares slope of degree-1 `np.polyfit(x, y, 1)[0]`:
`(n*Σxy − Σx*Σy) / (n*Σx² − (Σx)²)` (0 on a degenerate denominator, where
numpy's lstsq is ill-conditioned). -/
def polyfitSlope (x y : List ℚ) : ℚ :=
  let n : ℚ := (x.length : ℚ)
  let sx := x.sum
  let sy := y.sum
  let sxy := (List.zipWith (· * ·) x y).sum
  let sxx := (x.map (fun v => v * v)).sum
  (n * sxy - sx * sy) / (n * sxx - sx * sx)

/-! ### Streaming classifier: `gnss_sdr_bridge.py`, class `GNSSJammingMetrics` -/

/-- Tracked satellite record (`GNSSSatellite`): the fields the classifier
reads.  `tracking_state`: 0 = searching, 1 = acquired, 2 = tracking. -/
structure GNSSSatellite where
  prn : ℕ
  cn0_dbhz : ℚ
  doppler_hz : ℚ
  tracking_state : ℕ
deriving DecidableEq, Repr

/-- The three rolling history buffers.  In the source these are *class*
variables of `GNSSJammingMetrics` (lines 105-109), i.e. one global mutable
triple shared by every instance; the embedding threads this single value
through each classification call. -/
structure BridgeHistory where
  cn0_history : List ℚ
  doppler_history : List ℚ
  cn0_correlation_history : List ℚ
deriving DecidableEq, Repr

/-- Empty history: the state of the class variables at module load. -/
def emptyHistory : BridgeHistory := ⟨[], [], []⟩

/-- `HISTORY_WINDOW = 30`. -/
def HISTORY_WINDOW : ℕ := 30

/-- Append then conditionally evict the oldest entry:
`history.append(x); if len(history) > HISTORY_WINDOW: history.pop(0)`. -/
def pushHistory (h : List ℚ) (x : ℚ) : List ℚ :=
  let h2 := h ++ [x]
  if HISTORY_WINDOW < h2.length then h2.drop 1 else h2

/-- Method `_calculate_std`: 0 for fewer than two values, else the square
root of the population variance (`sq` models float `** 0.5`). -/
def calculate_std (sq : ℚ → ℚ) (values : List ℚ) : ℚ :=
  if values.length < 2 then 0 else sq (listVariance values)

/-- Method `_calculate_cn0_variation`: 0 when the (post-push) history has
fewer than 5 entries or the current average C/N0 is 0, else the absolute
deviation of the current average from the history's moving average. -/
def calculate_cn0_variation (history : List ℚ) (avg_cn0 : ℚ) : ℚ :=
  if history.length < 5 ∨ avg_cn0 = 0 then 0
  else |avg_cn0 - listMean history|

/-- Method `_calculate_cn0_correlation`: the inter-satellite C/N0
"correlation" proxy computed from the coefficient of variation of the
current epoch's C/N0 values (lines 212-242). -/
def calculate_cn0_correlation (sq : ℚ → ℚ) (values : List ℚ) : ℚ :=
  if values.length < 2 then 0
  else
    let m := listMean values
    let v := listVariance values
    if v = 0 then 1
    else
      let cv := if 0 < m then sq v / m else 0
      1 - min (cv / (3 / 10)) 1

/-- Method `_calculate_doppler_variation`: standard deviation of the Doppler
history, or 0 when the history has fewer than 5 entries. -/
def calculate_doppler_variation (sq : ℚ → ℚ) (history : List ℚ) : ℚ :=
  if history.length < 5 then 0 else sq (listVariance history)

/-- Severity labels returned by `_calculate_severity`. -/
inductive Severity where
  | NONE | SPOOFING_DETECTED | SEVERE | HEAVY | MODERATE | LIGHT
deriving DecidableEq, Repr

/-- Jamming/spoofing type labels returned by `_estimate_type`. -/
inductive JamType where
  | NONE
  | HIGH_CONFIDENCE_SPOOFING
  | POSSIBLE_SPOOFING
  | SUSPECTED_SPOOFING_LOW_DOPPLER
  | BROADBAND_NOISE
  | CW_TONE
  | MATCHED_POWER_ATTACK
  | UNKNOWN
deriving DecidableEq, Repr

/-- Method `_calculate_severity` (lines 262-282). -/
def calcSeverity (is_jammed : Bool) (cn0_variation avg_cn0 : ℚ) : Severity :=
  if !is_jammed then .NONE
  else if 5 < cn0_variation then .SPOOFING_DETECTED
  else if avg_cn0 < 20 then .SEVERE
  else if avg_cn0 < 25 then .HEAVY
  else if avg_cn0 < 30 then .MODERATE
  else .LIGHT

/-- Method `_estimate_type` (lines 284-323); `dopplerHistLen` is the length
of the (class-level) Doppler history after this epoch's push. -/
def estimateType (is_jammed : Bool) (cn0_correlation doppler_variation
    cn0_variation cn0_std max_cn0 min_cn0 : ℚ) (dopplerHistLen : ℕ)
    (satsNonempty : Bool) : JamType :=
  if !is_jammed then .NONE
  else if 95 / 100 < cn0_correlation ∧ doppler_variation < 50 then
    .HIGH_CONFIDENCE_SPOOFING
  else if 5 < cn0_variation then .POSSIBLE_SPOOFING
  else if doppler_variation < 20 ∧ 10 < dopplerHistLen then
    .SUSPECTED_SPOOFING_LOW_DOPPLER
  else if cn0_std < 3 then .BROADBAND_NOISE
  else if satsNonempty ∧ 10 < max_cn0 - min_cn0 then .CW_TONE
  else if cn0_std < 5 then .MATCHED_POWER_ATTACK
  else .UNKNOWN

/-- Per-epoch aggregates computed at the top of
`GNSSJammingMetrics.__init__` (lines 111-143): the `if satellites:` branch
computes them from the current records, the `else` branch zeroes them. -/
structure EpochStats where
  avg_cn0 : ℚ
  min_cn0 : ℚ
  max_cn0 : ℚ
  num_tracking : ℕ
  cn0_values : List ℚ
  cn0_std : ℚ
  avg_doppler : ℚ
  doppler_std : ℚ
  cn0_correlation : ℚ
deriving Repr

/-- Lines 111-143 of `GNSSJammingMetrics.__init__`. -/
def computeStats (sq : ℚ → ℚ) (sats : List GNSSSatellite) : EpochStats :=
  if sats.isEmpty then ⟨0, 0, 0, 0, [], 0, 0, 0, 0⟩
  else
    let cn0_values := (sats.filter (fun s => 1 ≤ s.tracking_state)).map
      (fun s => s.cn0_dbhz)
    let doppler_values := (sats.filter (fun s => 2 ≤ s.tracking_state)).map
      (fun s => s.doppler_hz)
    { avg_cn0 := if cn0_values.isEmpty then 0 else listMean cn0_values
      min_cn0 := if cn0_values.isEmpty then 0 else listMin cn0_values
      max_cn0 := if cn0_values.isEmpty then 0 else listMax cn0_values
      num_tracking := (sats.filter (fun s => 2 ≤ s.tracking_state)).length
      cn0_values := cn0_values
      cn0_std := if 1 < cn0_values.length then calculate_std sq cn0_values else 0
      avg_doppler := if doppler_values.isEmpty then 0 else listMean doppler_values
      doppler_std :=
        if 1 < doppler_values.length then calculate_std sq doppler_values else 0
      cn0_correlation := calculate_cn0_correlation sq cn0_values }

/-- The verdict record built by `GNSSJammingMetrics.__init__`. -/
structure GNSSJammingMetrics where
  avg_cn0 : ℚ
  min_cn0 : ℚ
  max_cn0 : ℚ
  num_tracking : ℕ
  cn0_values : List ℚ
  cn0_std : ℚ
  avg_doppler : ℚ
  doppler_std : ℚ
  cn0_correlation : ℚ
  cn0_variation : ℚ
  doppler_variation : ℚ
  is_jammed : Bool
  jamming_severity : Severity
  jamming_type : JamType
deriving Repr

/-- One classification call, `GNSSJammingMetrics(satellites)` — the whole of
`__init__` (lines 111-185).  `st` is the value of the three class-level
history buffers before the call; the returned `BridgeHistory` is their value
after it (the source mutates the shared class variables in place). -/
def mkGNSSJammingMetrics (sq : ℚ → ℚ) (st : BridgeHistory)
    (sats : List GNSSSatellite) : GNSSJammingMetrics × BridgeHistory :=
  let s := computeStats sq sats
  -- lines 145-161: conditional pushes into the class-level buffers
  let h1 := if 0 < s.avg_cn0 then pushHistory st.cn0_history s.avg_cn0
            else st.cn0_history
  let h2 := if s.avg_doppler ≠ 0 then pushHistory st.doppler_history s.avg_doppler
            else st.doppler_history
  let h3 := if 0 < s.cn0_correlation then
              pushHistory st.cn0_correlation_history s.cn0_correlation
            else st.cn0_correlation_history
  -- lines 163-167: variations, computed from the buffers after the pushes
  let cn0_variation := calculate_cn0_variation h1 s.avg_cn0
  let doppler_variation := calculate_doppler_variation sq h2
  -- lines 175-183: the two detection stages
  let threshold_jammed := s.avg_cn0 < 30 ∧ 0 < s.avg_cn0
  let variation_jammed := 3 < cn0_variation ∧ 5 < h1.length
  let is_jammed := decide threshold_jammed || decide variation_jammed
  ({ avg_cn0 := s.avg_cn0
     min_cn0 := s.min_cn0
     max_cn0 := s.max_cn0
     num_tracking := s.num_tracking
     cn0_values := s.cn0_values
     cn0_std := s.cn0_std
     avg_doppler := s.avg_doppler
     doppler_std := s.doppler_std
     cn0_correlation := s.cn0_correlation
     cn0_variation := cn0_variation
     doppler_variation := doppler_variation
     is_jammed := is_jammed
     jamming_severity := calcSeverity is_jammed cn0_variation s.avg_cn0
     jamming_type := estimateType is_jammed s.cn0_correlation doppler_variation
       cn0_variation s.cn0_std s.max_cn0 s.min_cn0 h2.length (!sats.isEmpty) },
   ⟨h1, h2, h3⟩)

/-- Fold a sequence of epochs through the shared class-level history. -/
def runEpochs (sq : ℚ → ℚ) (st : BridgeHistory)
    (epochs : List (List GNSSSatellite)) : BridgeHistory :=
  epochs.foldl (fun acc e => (mkGNSSJammingMetrics sq acc e).2) st

/-! ### Offline analyzer: `gps_spectrum_analyzer.py`, class `GPSSpectrumAnalyzer` -/

/-- Errors the spectrogram stage can surface.  `formatError` is the error
named by the specification; `valueError` is numpy's generic `ValueError`
(raised by `np.zeros` on a negative dimension). -/
inductive SpectroError where
  | formatError | valueError
deriving DecidableEq, Repr

/-- Framing/trim skeleton of `compute_spectrogram` (numpy fallback path,
lines 133-166): the number of frequency bins and of time bins produced.
`hop = nperseg - noverlap`; `num_frames = (n - nperseg) // hop + 1`
(Python floor division); a negative frame count makes
`np.zeros((nperseg, num_frames))` fail with a `ValueError`; afterwards the
trim step removes `int(0.1 * num_frames / (n / sr))` leading time bins when
that count is strictly between 0 and the frame count.  No `FormatError`
check exists anywhere in the source. -/
def computeSpectrogramShape (nperseg noverlap n : ℕ) (sr : ℚ) :
    Except SpectroError (ℕ × ℕ) :=
  let hop : ℕ := nperseg - noverlap
  let num_frames : ℤ := Int.fdiv ((n : ℤ) - (nperseg : ℤ)) (hop : ℤ) + 1
  if num_frames < 0 then .error .valueError
  else
    let frames := num_frames.toNat
    let trim_bins := pyInt ((1 / 10) * (frames : ℚ) / ((n : ℚ) / sr))
    if 0 < trim_bins ∧ trim_bins < (frames : ℤ) then
      .ok (nperseg, frames - trim_bins.toNat)
    else .ok (nperseg, frames)

/-- Number of leading time bins removed by the trim step of
`compute_spectrogram` (lines 154-156):
`trim_bins = int(0.1 * len(t) / (numSamples / sample_rate))`. -/
def trimBins (t : List ℚ) (numSamples : ℕ) (sr : ℚ) : ℤ :=
  pyInt ((1 / 10) * (t.length : ℚ) / ((numSamples : ℚ) / sr))

/-- Trim step of `compute_spectrogram` (lines 154-161), applied to the
untrimmed STFT output: when `0 < trim_bins < len(t)` it drops the first
`trim_bins` entries of the time axis and the first `trim_bins` columns of
every `power_db` row (`Sxx_db[:, trim_bins:]`); otherwise it changes
nothing. -/
def trimSpectrogram (t : List ℚ) (rows : List (List ℚ)) (numSamples : ℕ)
    (sr : ℚ) : List ℚ × List (List ℚ) :=
  let k := trimBins t numSamples sr
  if 0 < k ∧ k < (t.length : ℤ) then
    (t.drop k.toNat, rows.map (fun r => r.drop k.toNat))
  else (t, rows)

/-- Result of `detect_sweep_jammer`. -/
structure SweepResult where
  detected : Bool
  confidence : ℚ
  sweep_rate_hz_per_sec : ℚ
deriving Repr

/-- Method `detect_sweep_jammer` (lines 168-209): per-frequency-bin variance
of power over time; if the maximum variance exceeds 15 dB², fit the slope of
frequency-of-peak-power against time; detected only when additionally
`|slope| > 10000` Hz/s, with confidence `min(max_variance/30, 1)`.
`rows` is `Sxx_db` as a list of per-frequency rows (time along each row). -/
def detect_sweep_jammer (f t : List ℚ) (rows : List (List ℚ)) : SweepResult :=
  let freqVariance := rows.map listVariance
  let mi := argmaxIdx freqVariance
  let maxVariance := freqVariance.getD mi 0
  if 15 < maxVariance then
    let cols := (List.range t.length).map (fun j => rows.map (fun r => r.getD j 0))
    let peakFreqPerTime := cols.map (fun c => f.getD (argmaxIdx c) 0)
    let sweep_rate := polyfitSlope t peakFreqPerTime
    if 10000 < |sweep_rate| then
      ⟨true, min (maxVariance / 30) 1, sweep_rate⟩
    else ⟨false, 0, sweep_rate⟩
  else ⟨false, 0, 0⟩

/-- Result of `detect_pulse_jammer`. -/
structure PulseResult where
  detected : Bool
  confidence : ℚ
  pulse_rate_hz : ℚ
  duty_cycle : ℚ
  num_pulses : ℕ
deriving Repr

/-- Method `detect_pulse_jammer` (lines 211-263): instantaneous power
`|sample|²`, 1 ms centered moving average, absolute first differences,
threshold at the 99th percentile of those differences; the count of
differences above the threshold is the edge count.  Detection fires on
`num_pulses > 10`; then rate `(num_pulses/2)/duration`, duty cycle the
fraction of smoothed power above its median, confidence
`min(num_pulses/100, 1)`.  Samples are (I, Q) pairs. -/
def detect_pulse_jammer (sample_rate : ℚ) (samples : List (ℚ × ℚ)) :
    PulseResult :=
  let power := samples.map (fun s => s.1 * s.1 + s.2 * s.2)
  let window_size : ℕ := (pyInt (sample_rate * (1 / 1000))).toNat
  let power_smooth := convolveSameOnes power window_size
  let power_diff := (npDiff power_smooth).map (fun d => |d|)
  let threshold := npPercentile power_diff 99
  let num_pulses := power_diff.countP (fun d => decide (threshold < d))
  if 10 < num_pulses then
    let duration := (samples.length : ℚ) / sample_rate
    let pulse_rate := ((num_pulses : ℚ) / 2) / duration
    let med := npMedian power_smooth
    let duty := ((power_smooth.countP (fun p => decide (med < p)) : ℚ)) /
      (power_smooth.length : ℚ)
    ⟨true, min ((num_pulses : ℚ) / 100) 1, pulse_rate, duty, num_pulses⟩
  else ⟨false, 0, 0, 0, num_pulses⟩

/-- Result of `detect_noise_jammer`. -/
structure NoiseResult where
  detected : Bool
  confidence : ℚ
  noise_floor_db : ℚ
  bandwidth_hz : ℚ
  spectrum_flatness_db : ℚ
deriving Repr

/-- Method `detect_noise_jammer` from the point where the dB power spectral
density has been formed (lines 277-313); `psd_db` stands for
`10*log10(psd + 1e-12)` of the Welch estimate, produced upstream by scipy.
Flatness is `np.std(psd_db)` (via `sq`), the floor the median; detection
when flatness < 5 dB, confidence `min((5 - flatness)/5, 1)`; bandwidth the
number of bins within 3 dB of the floor times the bin width. -/
def detect_noise_jammer (sq : ℚ → ℚ) (sample_rate : ℚ) (psd_db : List ℚ) :
    NoiseResult :=
  let psd_variation := sq (listVariance psd_db)
  let noise_floor := npMedian psd_db
  if psd_variation < 5 then
    let bandwidth := ((psd_db.countP (fun v => decide (noise_floor - 3 < v)) : ℚ)) *
      (sample_rate / (psd_db.length : ℚ))
    ⟨true, min ((5 - psd_variation) / 5) 1, noise_floor, bandwidth, psd_variation⟩
  else ⟨false, 0, noise_floor, 0, psd_variation⟩

/-- One narrowband peak record. -/
structure NBPeak where
  freq_hz : ℚ
  power_db : ℚ
  bandwidth_hz : ℚ
  snr_db : ℚ
deriving DecidableEq, Repr

/-- Leftward −3 dB edge walk of `detect_narrowband_signals`:
`while left_idx > 0 and s[left_idx] > thr: left_idx -= 1`. -/
def walkLeft (s : List ℚ) (thr : ℚ) : ℕ → ℕ
  | 0 => 0
  | i + 1 => if thr < s.getD (i + 1) 0 then walkLeft s thr i else i + 1

/-- Rightward −3 dB edge walk:
`while right_idx < len(s) - 1 and s[right_idx] > thr: right_idx += 1`;
`fuel` is the distance to the last index. -/
def walkRight (s : List ℚ) (thr : ℚ) : ℕ → ℕ → ℕ
  | 0, i => i
  | fuel + 1, i => if thr < s.getD i 0 then walkRight s thr fuel (i + 1) else i

/-- Result of `detect_narrowband_signals`. -/
structure NBResult where
  detected : Bool
  confidence : ℚ
  num_signals : ℕ
  peaks : List NBPeak
deriving Repr

/-- Method `detect_narrowband_signals` (lines 315-394): per-frequency MAX
over time, noise floor at the 25th percentile of the per-frequency mean,
threshold floor + 6 dB; local maxima above threshold whose −3 dB bandwidth
lies strictly between 30 Hz and 2 kHz are peaks; sorted by power descending
and capped at 50; detected when any survive, confidence
`min(len(peaks)/10, 1)`. -/
def detect_narrowband_signals (f t : List ℚ) (rows : List (List ℚ)) :
    NBResult :=
  let maxSpectrum := rows.map listMax
  let meanSpectrum := rows.map listMean
  let noise_floor := npPercentile meanSpectrum 25
  let threshold := noise_floor + 6
  let n := maxSpectrum.length
  let freq_res := f.getD 1 0 - f.getD 0 0
  let peaks := (List.range n).filterMap (fun i =>
    if 1 ≤ i ∧ i + 1 < n then
      let v := maxSpectrum.getD i 0
      if threshold < v ∧ maxSpectrum.getD (i - 1) 0 < v ∧
          maxSpectrum.getD (i + 1) 0 < v then
        let bwThr := v - 3
        let l := walkLeft maxSpectrum bwThr i
        let r := walkRight maxSpectrum bwThr (n - 1 - i) i
        let bw := ((r - l : ℕ) : ℚ) * freq_res
        if 30 < bw ∧ bw < 2000 then
          some ⟨f.getD i 0, v, bw, v - noise_floor⟩
        else none
      else none
    else none)
  let kept := (peaks.insertionSort (fun a b => b.power_db ≤ a.power_db)).take 50
  if kept.isEmpty then ⟨false, 0, 0, []⟩
  else ⟨true, min ((kept.length : ℚ) / 10) 1, kept.length, kept⟩

/-- Result of `detect_meaconing`. -/
structure MeaconResult where
  detected : Bool
  confidence : ℚ
  num_signals : ℕ
  signal_power_dbm : ℚ
  doppler_variation_hz : ℚ
deriving Repr

/-- Decision logic of `detect_meaconing` (lines 423-453) over the two dB
quantities the method derives upstream: `max_power_db`, the estimated
received power in dBm (`10*log10(mean |s|² + 1e-12) − 10`, transcendental),
and `doppler_variation`, the standard deviation of the per-time-frame
frequency of peak power (only computed, and only reported, once the power
gate has passed).  Detection requires power above −120 dBm and Doppler
variation below 1000 Hz; confidence is
`min(power_factor * static_factor, 0.95)`. -/
def detect_meaconing_decision (max_power_db doppler_variation : ℚ) :
    MeaconResult :=
  if -120 < max_power_db then
    if doppler_variation < 1000 then
      let power_factor := min ((max_power_db + 130) / 30) 1
      let static_factor := max 0 ((1000 - doppler_variation) / 1000)
      ⟨true, min (power_factor * static_factor) (95 / 100), 1,
        max_power_db, doppler_variation⟩
    else ⟨false, 0, 0, max_power_db, doppler_variation⟩
  else ⟨false, 0, 0, max_power_db, 0⟩

/-- Concrete 903-sample block (sample rate 1000 S/s, so the 1 ms smoothing
window is a single sample): 893 zero samples followed by five on/off cycles,
producing exactly 10 candidate pulse edges. -/
def pulseBlock : List (ℚ × ℚ) :=
  List.replicate 893 ((0 : ℚ), (0 : ℚ)) ++
    [(1, 0), (0, 0), (1, 0), (0, 0), (1, 0), (0, 0), (1, 0), (0, 0),
     (1, 0), (0, 0)]

/-! ### Helper lemmas -/

/-- A centered moving average with a one-sample window is the identity (in
the source, a 1 ms window at 1000 S/s is one sample). -/
lemma convolveSameOnes_one (x : List ℚ) : convolveSameOnes x 1 = x := by
  simp only [convolveSameOnes]
  apply List.ext_getElem
  · simp
  · intro j hj1 hj2
    simp only [List.getElem_map, List.getElem_range]
    have e1 : j + (1 - 1) / 2 = j := by norm_num
    have e2 : j + 1 - 1 = j := by omega
    have e3 : j + 1 - j = 1 := by omega
    rw [e1, e2, e3, List.drop_eq_getElem_cons hj2, List.take_succ_cons,
      List.take_zero, List.sum_cons, List.sum_nil, add_zero, Nat.cast_one,
      div_one]

/-- Population variance is nonnegative. -/
lemma listVariance_nonneg (l : List ℚ) : 0 ≤ listVariance l := by
  unfold listVariance
  apply div_nonneg
  · apply List.sum_nonneg
    intro x hx
    rcases List.mem_map.mp hx with ⟨y, _, rfl⟩
    positivity
  · exact_mod_cast Nat.zero_le _

/-- Sum of a constant list. -/
lemma listSum_const (l : List ℚ) (c : ℚ) (hc : ∀ x ∈ l, x = c) :
    l.sum = (l.length : ℚ) * c := by
  induction l with
  | nil => simp
  | cons a t ih =>
    have ha : a = c := hc a (List.mem_cons_self a t)
    have ht : ∀ x ∈ t, x = c := fun x hx => hc x (List.mem_cons_of_mem a hx)
    simp [ha, ih ht]
    ring

/-- Mean of a nonempty constant list is the constant. -/
lemma listMean_const (l : List ℚ) (c : ℚ) (hl : l ≠ []) (hc : ∀ x ∈ l, x = c) :
    listMean l = c := by
  have h0 : 0 < l.length := List.length_pos.mpr hl
  have hn : (l.length : ℚ) ≠ 0 := by exact_mod_cast h0.ne'
  unfold listMean
  rw [listSum_const l c hc]
  exact mul_div_cancel_left₀ c hn

/-- Variance of a nonempty constant list is 0. -/
lemma listVariance_const (l : List ℚ) (c : ℚ) (hl : l ≠ [])
    (hc : ∀ x ∈ l, x = c) : listVariance l = 0 := by
  unfold listVariance
  rw [List.sum_eq_zero, zero_div]
  intro x hx
  rcases List.mem_map.mp hx with ⟨y, hy, rfl⟩
  rw [hc y hy, listMean_const l c hl hc]
  ring

/-- Length bound preserved by a push into a capacity-30 buffer. -/
lemma pushHistory_length_le (h : List ℚ) (x : ℚ)
    (hh : h.length ≤ HISTORY_WINDOW) :
    (pushHistory h x).length ≤ HISTORY_WINDOW := by
  simp only [pushHistory, HISTORY_WINDOW] at *
  split
  · next hlt =>
    simp only [List.length_drop, List.length_append, List.length_cons,
      List.length_nil] at *
    omega
  · next hlt =>
    simp only [List.length_append, List.length_cons, List.length_nil] at *
    omega

/-- Closed form of a push into a buffer currently within capacity: append,
then drop the single oldest entry exactly when the append overflows. -/
lemma pushHistory_eq_drop (h : List ℚ) (x : ℚ)
    (hh : h.length ≤ HISTORY_WINDOW) :
    pushHistory h x = (h ++ [x]).drop (h.length + 1 - HISTORY_WINDOW) := by
  simp only [pushHistory, HISTORY_WINDOW] at *
  split
  · next hlt =>
    simp only [List.length_append, List.length_cons, List.length_nil] at hlt
    have he : h.length + 1 - 30 = 1 := by omega
    rw [he]
  · next hlt =>
    simp only [List.length_append, List.length_cons, List.length_nil] at hlt
    have he : h.length + 1 - 30 = 0 := by omega
    rw [he, List.drop_zero]

/-- Bounds for the correlation proxy, over the values of one epoch;
`0 ≤ sq (variance)` is the defining property of the float square root the
source takes. -/
lemma calculate_cn0_correlation_bounds (sq : ℚ → ℚ) (vals : List ℚ)
    (h : 0 ≤ sq (listVariance vals)) :
    0 ≤ calculate_cn0_correlation sq vals ∧
      calculate_cn0_correlation sq vals ≤ 1 := by
  simp only [calculate_cn0_correlation]
  split_ifs with h1 h2 h3
  · norm_num
  · norm_num
  · have hq : 0 ≤ sq (listVariance vals) / listMean vals / (3 / 10) :=
      div_nonneg (div_nonneg h h3.le) (by norm_num)
    have hlo : 0 ≤ min (sq (listVariance vals) / listMean vals / (3 / 10)) 1 :=
      le_min hq (by norm_num)
    have hhi : min (sq (listVariance vals) / listMean vals / (3 / 10)) 1 ≤ 1 :=
      min_le_right _ _
    constructor <;> linarith
  · norm_num

/-- The correlation proxy is exactly 1 on two or more identical values
(zero cross-sectional variance). -/
lemma calculate_cn0_correlation_const (sq : ℚ → ℚ) (vals : List ℚ) (c : ℚ)
    (h2 : 2 ≤ vals.length) (hc : ∀ x ∈ vals, x = c) :
    calculate_cn0_correlation sq vals = 1 := by
  have hne : vals ≠ [] := by
    intro h
    subst h
    simp at h2
  have hv : listVariance vals = 0 := listVariance_const vals c hne hc
  simp only [calculate_cn0_correlation]
  rw [if_neg (by omega), if_pos hv]

/-! ### Claim theorems -/

/-- Claim C1: the classifier's rolling history is kept in class variables of
`GNSSJammingMetrics`, shared by every instance, so the verdict of a
classification call depends on the epochs previously fed through *other*
instances.  Concretely: a fresh classifier evaluating its first epoch (one
acquired satellite at C/N0 = 50 dB-Hz) reports `is_jammed = false`, but the
identical epoch evaluated after another instance has classified six epochs
at C/N0 = 40 dB-Hz reports `is_jammed = true` — the shared C/N0 history
makes Stage 2 fire.  This refutes per-instance isolation of
`ClassifierHistory`. -/
theorem c1_shared_history_breaks_isolation :
    (mkGNSSJammingMetrics (fun _ => 0) emptyHistory
        [⟨2, 50, 0, 1⟩]).1.is_jammed = false ∧
    (mkGNSSJammingMetrics (fun _ => 0)
        (runEpochs (fun _ => 0) emptyHistory
          (List.replicate 6 [⟨1, 40, 0, 1⟩]))
        [⟨2, 50, 0, 1⟩]).1.is_jammed = true := by decide

/-- Claim C3 (counterexample): after six epochs at average C/N0 = 40 dB-Hz,
an epoch with no satellites has `avg_cn0 = 0`; the C/N0 history then has 6
(> 5) entries and `|avg_cn0 − moving_average| = 40 > 3`, so the claim's
Stage 2 holds while Stage 1 does not — yet the code reports
`is_jammed = false`, because `_calculate_cn0_variation` returns 0 whenever
`avg_cn0 == 0`.  The claimed "Stage 1 OR Stage 2" equivalence is therefore
false as stated. -/
theorem c3_zero_avg_cn0_counterexample :
    (mkGNSSJammingMetrics (fun _ => 0)
        (runEpochs (fun _ => 0) emptyHistory
          (List.replicate 6 [⟨1, 40, 0, 1⟩])) []).1.is_jammed = false ∧
    5 < (mkGNSSJammingMetrics (fun _ => 0)
        (runEpochs (fun _ => 0) emptyHistory
          (List.replicate 6 [⟨1, 40, 0, 1⟩])) []).2.cn0_history.length ∧
    3 < |(mkGNSSJammingMetrics (fun _ => 0)
        (runEpochs (fun _ => 0) emptyHistory
          (List.replicate 6 [⟨1, 40, 0, 1⟩])) []).1.avg_cn0 -
        listMean (mkGNSSJammingMetrics (fun _ => 0)
          (runEpochs (fun _ => 0) emptyHistory
            (List.replicate 6 [⟨1, 40, 0, 1⟩])) []).2.cn0_history| ∧
    ¬(0 < (mkGNSSJammingMetrics (fun _ => 0)
        (runEpochs (fun _ => 0) emptyHistory
          (List.replicate 6 [⟨1, 40, 0, 1⟩])) []).1.avg_cn0 ∧
      (mkGNSSJammingMetrics (fun _ => 0)
        (runEpochs (fun _ => 0) emptyHistory
          (List.replicate 6 [⟨1, 40, 0, 1⟩])) []).1.avg_cn0 < 30) := by decide

/-- Claim C3 (amended): for every epoch, `is_jammed` is true iff Stage 1
holds (`0 < avg_cn0 < 30`) or the amended Stage 2 holds: `avg_cn0 ≠ 0` AND
the (post-push) C/N0 history has more than 5 entries AND the absolute
deviation of `avg_cn0` from the history's moving average exceeds 3 dB.  The
only change forced by the counterexample is the extra `avg_cn0 ≠ 0` guard,
which the source imposes inside `_calculate_cn0_variation`. -/
theorem c3_is_jammed_iff_amended (sq : ℚ → ℚ) (st : BridgeHistory)
    (sats : List GNSSSatellite) :
    (mkGNSSJammingMetrics sq st sats).1.is_jammed = true ↔
      ((0 < (mkGNSSJammingMetrics sq st sats).1.avg_cn0 ∧
        (mkGNSSJammingMetrics sq st sats).1.avg_cn0 < 30) ∨
      ((mkGNSSJammingMetrics sq st sats).1.avg_cn0 ≠ 0 ∧
        5 < (mkGNSSJammingMetrics sq st sats).2.cn0_history.length ∧
        3 < |(mkGNSSJammingMetrics sq st sats).1.avg_cn0 -
              listMean (mkGNSSJammingMetrics sq st sats).2.cn0_history|)) := by
  simp only [mkGNSSJammingMetrics]
  rw [Bool.or_eq_true, decide_eq_true_iff, decide_eq_true_iff]
  set a := (computeStats sq sats).avg_cn0 with ha
  set H := (if 0 < a then pushHistory st.cn0_history a else st.cn0_history)
    with hH
  simp only [calculate_cn0_variation]
  by_cases hA : a = 0
  · rw [if_pos (Or.inr hA)]
    constructor
    · rintro (⟨h1, h2⟩ | ⟨h3, _⟩)
      · exact Or.inl ⟨h2, h1⟩
      · norm_num at h3
    · rintro (⟨h1, _⟩ | ⟨h3, _⟩)
      · rw [hA] at h1
        norm_num at h1
      · exact absurd hA h3
  · by_cases hL : H.length < 5
    · rw [if_pos (Or.inl hL)]
      constructor
      · rintro (⟨h1, h2⟩ | ⟨h3, _⟩)
        · exact Or.inl ⟨h2, h1⟩
        · norm_num at h3
      · rintro (⟨h1, h2⟩ | ⟨_, h4, _⟩)
        · exact Or.inl ⟨h2, h1⟩
        · omega
    · rw [if_neg (not_or.mpr ⟨hL, hA⟩)]
      constructor
      · rintro (⟨h1, h2⟩ | ⟨h3, h4⟩)
        · exact Or.inl ⟨h2, h1⟩
        · exact Or.inr ⟨hA, h4, h3⟩
      · rintro (⟨h1, h2⟩ | ⟨_, h4, h5⟩)
        · exact Or.inl ⟨h2, h1⟩
        · exact Or.inr ⟨h5, h4⟩

/-- Claim C8 (counterexample): on an epoch with one acquired satellite
(C/N0 = 40, no tracking-state-2 satellites), only the C/N0 buffer receives
an entry: the average Doppler is 0 so the Doppler buffer is left untouched,
and the correlation proxy is 0 (fewer than two values) so the correlation
buffer is left untouched.  This refutes the claim that all three values are
appended on every epoch. -/
theorem c8_not_always_appended :
    (mkGNSSJammingMetrics (fun _ => 0) emptyHistory
        [⟨1, 40, 0, 1⟩]).2 = BridgeHistory.mk [40] [] [] := by decide

/-- Claim C8 (amended): each of the three values is appended to its buffer
only under the source's guard — average C/N0 when it is positive, average
Doppler when it is nonzero, correlation proxy when it is positive; when an
append overflows capacity 30 the oldest (front) entry is evicted; and if
each buffer holds at most 30 entries before the epoch, each holds at most
30 after it. -/
theorem c8_history_capacity_amended (sq : ℚ → ℚ) (st : BridgeHistory)
    (sats : List GNSSSatellite)
    (hc : st.cn0_history.length ≤ HISTORY_WINDOW)
    (hd : st.doppler_history.length ≤ HISTORY_WINDOW)
    (hk : st.cn0_correlation_history.length ≤ HISTORY_WINDOW) :
    ((mkGNSSJammingMetrics sq st sats).2.cn0_history.length ≤ HISTORY_WINDOW ∧
     (mkGNSSJammingMetrics sq st sats).2.doppler_history.length ≤
       HISTORY_WINDOW ∧
     (mkGNSSJammingMetrics sq st sats).2.cn0_correlation_history.length ≤
       HISTORY_WINDOW) ∧
    ((0 < (mkGNSSJammingMetrics sq st sats).1.avg_cn0 →
       (mkGNSSJammingMetrics sq st sats).2.cn0_history =
         (st.cn0_history ++ [(mkGNSSJammingMetrics sq st sats).1.avg_cn0]).drop
           (st.cn0_history.length + 1 - HISTORY_WINDOW)) ∧
     (¬0 < (mkGNSSJammingMetrics sq st sats).1.avg_cn0 →
       (mkGNSSJammingMetrics sq st sats).2.cn0_history = st.cn0_history)) ∧
    (((mkGNSSJammingMetrics sq st sats).1.avg_doppler ≠ 0 →
       (mkGNSSJammingMetrics sq st sats).2.doppler_history =
         (st.doppler_history ++
           [(mkGNSSJammingMetrics sq st sats).1.avg_doppler]).drop
           (st.doppler_history.length + 1 - HISTORY_WINDOW)) ∧
     ((mkGNSSJammingMetrics sq st sats).1.avg_doppler = 0 →
       (mkGNSSJammingMetrics sq st sats).2.doppler_history =
         st.doppler_history)) ∧
    ((0 < (mkGNSSJammingMetrics sq st sats).1.cn0_correlation →
       (mkGNSSJammingMetrics sq st sats).2.cn0_correlation_history =
         (st.cn0_correlation_history ++
           [(mkGNSSJammingMetrics sq st sats).1.cn0_correlation]).drop
           (st.cn0_correlation_history.length + 1 - HISTORY_WINDOW)) ∧
     (¬0 < (mkGNSSJammingMetrics sq st sats).1.cn0_correlation →
       (mkGNSSJammingMetrics sq st sats).2.cn0_correlation_history =
         st.cn0_correlation_history)) := by
  simp only [mkGNSSJammingMetrics]
  refine ⟨⟨?_, ?_, ?_⟩, ⟨?_, ?_⟩, ⟨?_, ?_⟩, ⟨?_, ?_⟩⟩
  · split_ifs with h
    · exact pushHistory_length_le _ _ hc
    · exact hc
  · split_ifs with h
    · exact pushHistory_length_le _ _ hd
    · exact hd
  · split_ifs with h
    · exact pushHistory_length_le _ _ hk
    · exact hk
  · intro h
    rw [if_pos h]
    exact pushHistory_eq_drop _ _ hc
  · intro h
    rw [if_neg h]
  · intro h
    rw [if_pos h]
    exact pushHistory_eq_drop _ _ hd
  · intro h
    rw [if_neg (by simpa using h)]
  · intro h
    rw [if_pos h]
    exact pushHistory_eq_drop _ _ hk
  · intro h
    rw [if_neg h]

/-- Claim C8 (witness): the amended buffer theorem at a concrete epoch with
one tracking satellite (C/N0 40, Doppler 100) and empty prior buffers. -/
theorem c8_history_capacity_witness :
    emptyHistory.cn0_history.length ≤ HISTORY_WINDOW ∧
    emptyHistory.doppler_history.length ≤ HISTORY_WINDOW ∧
    emptyHistory.cn0_correlation_history.length ≤ HISTORY_WINDOW ∧
    (((mkGNSSJammingMetrics (fun _ => 0) emptyHistory
        [⟨1, 40, 100, 2⟩]).2.cn0_history.length ≤ HISTORY_WINDOW ∧
      (mkGNSSJammingMetrics (fun _ => 0) emptyHistory
        [⟨1, 40, 100, 2⟩]).2.doppler_history.length ≤ HISTORY_WINDOW ∧
      (mkGNSSJammingMetrics (fun _ => 0) emptyHistory
        [⟨1, 40, 100, 2⟩]).2.cn0_correlation_history.length ≤
        HISTORY_WINDOW) ∧
     ((0 < (mkGNSSJammingMetrics (fun _ => 0) emptyHistory
          [⟨1, 40, 100, 2⟩]).1.avg_cn0 →
        (mkGNSSJammingMetrics (fun _ => 0) emptyHistory
          [⟨1, 40, 100, 2⟩]).2.cn0_history =
          (emptyHistory.cn0_history ++
            [(mkGNSSJammingMetrics (fun _ => 0) emptyHistory
              [⟨1, 40, 100, 2⟩]).1.avg_cn0]).drop
            (emptyHistory.cn0_history.length + 1 - HISTORY_WINDOW)) ∧
      (¬0 < (mkGNSSJammingMetrics (fun _ => 0) emptyHistory
          [⟨1, 40, 100, 2⟩]).1.avg_cn0 →
        (mkGNSSJammingMetrics (fun _ => 0) emptyHistory
          [⟨1, 40, 100, 2⟩]).2.cn0_history = emptyHistory.cn0_history)) ∧
     (((mkGNSSJammingMetrics (fun _ => 0) emptyHistory
          [⟨1, 40, 100, 2⟩]).1.avg_doppler ≠ 0 →
        (mkGNSSJammingMetrics (fun _ => 0) emptyHistory
          [⟨1, 40, 100, 2⟩]).2.doppler_history =
          (emptyHistory.doppler_history ++
            [(mkGNSSJammingMetrics (fun _ => 0) emptyHistory
              [⟨1, 40, 100, 2⟩]).1.avg_doppler]).drop
            (emptyHistory.doppler_history.length + 1 - HISTORY_WINDOW)) ∧
      ((mkGNSSJammingMetrics (fun _ => 0) emptyHistory
          [⟨1, 40, 100, 2⟩]).1.avg_doppler = 0 →
        (mkGNSSJammingMetrics (fun _ => 0) emptyHistory
          [⟨1, 40, 100, 2⟩]).2.doppler_history =
          emptyHistory.doppler_history)) ∧
     ((0 < (mkGNSSJammingMetrics (fun _ => 0) emptyHistory
          [⟨1, 40, 100, 2⟩]).1.cn0_correlation →
        (mkGNSSJammingMetrics (fun _ => 0) emptyHistory
          [⟨1, 40, 100, 2⟩]).2.cn0_correlation_history =
          (emptyHistory.cn0_correlation_history ++
            [(mkGNSSJammingMetrics (fun _ => 0) emptyHistory
              [⟨1, 40, 100, 2⟩]).1.cn0_correlation]).drop
            (emptyHistory.cn0_correlation_history.length + 1 -
              HISTORY_WINDOW)) ∧
      (¬0 < (mkGNSSJammingMetrics (fun _ => 0) emptyHistory
          [⟨1, 40, 100, 2⟩]).1.cn0_correlation →
        (mkGNSSJammingMetrics (fun _ => 0) emptyHistory
          [⟨1, 40, 100, 2⟩]).2.cn0_correlation_history =
          emptyHistory.cn0_correlation_history))) :=
  ⟨by decide, by decide, by decide,
    c8_history_capacity_amended (fun _ => 0) emptyHistory
      [⟨1, 40, 100, 2⟩] (by decide) (by decide) (by decide)⟩

/-- Claim C9: each of the five offline detectors returns a confidence in
[0, 1], and a confidence of exactly 0 whenever it reports no detection.
For the noise detector the spectral flatness is `np.std` of the dB PSD via
the square-root stand-in `sq`, whose nonnegativity is the hypothesis. -/
theorem c9_confidence_bounds :
    (∀ (f t : List ℚ) (rows : List (List ℚ)),
      (0 ≤ (detect_sweep_jammer f t rows).confidence ∧
        (detect_sweep_jammer f t rows).confidence ≤ 1) ∧
      ((detect_sweep_jammer f t rows).detected = false →
        (detect_sweep_jammer f t rows).confidence = 0)) ∧
    (∀ (sr : ℚ) (samples : List (ℚ × ℚ)),
      (0 ≤ (detect_pulse_jammer sr samples).confidence ∧
        (detect_pulse_jammer sr samples).confidence ≤ 1) ∧
      ((detect_pulse_jammer sr samples).detected = false →
        (detect_pulse_jammer sr samples).confidence = 0)) ∧
    (∀ (sq : ℚ → ℚ) (sr : ℚ) (psd : List ℚ),
      0 ≤ sq (listVariance psd) →
      (0 ≤ (detect_noise_jammer sq sr psd).confidence ∧
        (detect_noise_jammer sq sr psd).confidence ≤ 1) ∧
      ((detect_noise_jammer sq sr psd).detected = false →
        (detect_noise_jammer sq sr psd).confidence = 0)) ∧
    (∀ (f t : List ℚ) (rows : List (List ℚ)),
      (0 ≤ (detect_narrowband_signals f t rows).confidence ∧
        (detect_narrowband_signals f t rows).confidence ≤ 1) ∧
      ((detect_narrowband_signals f t rows).detected = false →
        (detect_narrowband_signals f t rows).confidence = 0)) ∧
    (∀ (p dv : ℚ),
      (0 ≤ (detect_meaconing_decision p dv).confidence ∧
        (detect_meaconing_decision p dv).confidence ≤ 1) ∧
      ((detect_meaconing_decision p dv).detected = false →
        (detect_meaconing_decision p dv).confidence = 0)) := by
  refine ⟨?_, ?_, ?_, ?_, ?_⟩
  · intro f t rows
    simp only [detect_sweep_jammer]
    split_ifs with h1 h2
    · refine ⟨⟨le_min (div_nonneg (by linarith) (by norm_num)) (by norm_num),
        min_le_right _ _⟩, ?_⟩
      intro h
      simp at h
    · exact ⟨⟨le_refl 0, by norm_num⟩, fun _ => rfl⟩
    · exact ⟨⟨le_refl 0, by norm_num⟩, fun _ => rfl⟩
  · intro sr samples
    simp only [detect_pulse_jammer]
    split_ifs with h1
    · refine ⟨⟨le_min (div_nonneg (Nat.cast_nonneg _) (by norm_num))
        (by norm_num), min_le_right _ _⟩, ?_⟩
      intro h
      simp at h
    · exact ⟨⟨le_refl 0, by norm_num⟩, fun _ => rfl⟩
  · intro sq sr psd hsq
    simp only [detect_noise_jammer]
    split_ifs with h1
    · refine ⟨⟨le_min (div_nonneg (by linarith) (by norm_num)) (by norm_num),
        min_le_right _ _⟩, ?_⟩
      intro h
      simp at h
    · exact ⟨⟨le_refl 0, by norm_num⟩, fun _ => rfl⟩
  · intro f t rows
    simp only [detect_narrowband_signals]
    split_ifs with h1
    · exact ⟨⟨le_refl 0, by norm_num⟩, fun _ => rfl⟩
    · refine ⟨⟨le_min (div_nonneg (Nat.cast_nonneg _) (by norm_num))
        (by norm_num), min_le_right _ _⟩, ?_⟩
      intro h
      simp at h
  · intro p dv
    simp only [detect_meaconing_decision]
    split_ifs with h1 h2
    · refine ⟨⟨le_min (mul_nonneg
        (le_min (div_nonneg (by linarith) (by norm_num)) (by norm_num))
        (le_max_left 0 _)) (by norm_num),
        (min_le_right _ _).trans (by norm_num)⟩, ?_⟩
      intro h
      simp at h
    · exact ⟨⟨le_refl 0, by norm_num⟩, fun _ => rfl⟩
    · exact ⟨⟨le_refl 0, by norm_num⟩, fun _ => rfl⟩

/-- Claim C9 (witness): the bounds theorem instantiated at concrete inputs
for each of the five detectors, discharging the noise detector's
square-root nonnegativity hypothesis at `sq = const 0`. -/
theorem c9_confidence_bounds_witness :
    0 ≤ (fun _ : ℚ => (0 : ℚ)) (listVariance [1, 2]) ∧
    ((0 ≤ (detect_noise_jammer (fun _ => 0) 1 [1, 2]).confidence ∧
      (detect_noise_jammer (fun _ => 0) 1 [1, 2]).confidence ≤ 1) ∧
     ((detect_noise_jammer (fun _ => 0) 1 [1, 2]).detected = false →
      (detect_noise_jammer (fun _ => 0) 1 [1, 2]).confidence = 0)) ∧
    ((0 ≤ (detect_sweep_jammer [0] [0] [[0]]).confidence ∧
      (detect_sweep_jammer [0] [0] [[0]]).confidence ≤ 1) ∧
     ((detect_sweep_jammer [0] [0] [[0]]).detected = false →
      (detect_sweep_jammer [0] [0] [[0]]).confidence = 0)) ∧
    ((0 ≤ (detect_pulse_jammer 1000 [(0, 0), (0, 0)]).confidence ∧
      (detect_pulse_jammer 1000 [(0, 0), (0, 0)]).confidence ≤ 1) ∧
     ((detect_pulse_jammer 1000 [(0, 0), (0, 0)]).detected = false →
      (detect_pulse_jammer 1000 [(0, 0), (0, 0)]).confidence = 0)) ∧
    ((0 ≤ (detect_narrowband_signals [0, 1] [0] [[0], [0]]).confidence ∧
      (detect_narrowband_signals [0, 1] [0] [[0], [0]]).confidence ≤ 1) ∧
     ((detect_narrowband_signals [0, 1] [0] [[0], [0]]).detected = false →
      (detect_narrowband_signals [0, 1] [0] [[0], [0]]).confidence = 0)) ∧
    ((0 ≤ (detect_meaconing_decision (-110) 500).confidence ∧
      (detect_meaconing_decision (-110) 500).confidence ≤ 1) ∧
     ((detect_meaconing_decision (-110) 500).detected = false →
      (detect_meaconing_decision (-110) 500).confidence = 0)) :=
  ⟨by simp,
   c9_confidence_bounds.2.2.1 (fun _ => 0) 1 [1, 2] (by simp),
   c9_confidence_bounds.1 [0] [0] [[0]],
   c9_confidence_bounds.2.1 1000 [(0, 0), (0, 0)],
   c9_confidence_bounds.2.2.2.1 [0, 1] [0] [[0], [0]],
   c9_confidence_bounds.2.2.2.2 (-110) 500⟩

/-- Claim C10: on every epoch the inter-satellite C/N0 correlation proxy
lies in [0, 1], and whenever two or more satellites with tracking state ≥
acquired report identical C/N0 values the proxy equals exactly 1.  The
hypothesis is the nonnegativity of the float square root used inside the
coefficient of variation. -/
theorem c10_correlation_proxy (sq : ℚ → ℚ) (st : BridgeHistory)
    (sats : List GNSSSatellite)
    (hsq : 0 ≤ sq (listVariance ((sats.filter
      (fun s => 1 ≤ s.tracking_state)).map (fun s => s.cn0_dbhz)))) :
    (0 ≤ (mkGNSSJammingMetrics sq st sats).1.cn0_correlation ∧
      (mkGNSSJammingMetrics sq st sats).1.cn0_correlation ≤ 1) ∧
    (∀ c : ℚ,
      2 ≤ ((sats.filter (fun s => 1 ≤ s.tracking_state)).map
        (fun s => s.cn0_dbhz)).length →
      (∀ x ∈ (sats.filter (fun s => 1 ≤ s.tracking_state)).map
        (fun s => s.cn0_dbhz), x = c) →
      (mkGNSSJammingMetrics sq st sats).1.cn0_correlation = 1) := by
  by_cases hs : sats.isEmpty
  · have hnil : sats = [] := List.isEmpty_iff.mp hs
    subst hnil
    constructor
    · simp [mkGNSSJammingMetrics, computeStats]
    · intro c hlen _
      simp at hlen
  · have hcorr : (mkGNSSJammingMetrics sq st sats).1.cn0_correlation =
        calculate_cn0_correlation sq ((sats.filter
          (fun s => 1 ≤ s.tracking_state)).map (fun s => s.cn0_dbhz)) := by
      simp [mkGNSSJammingMetrics, computeStats, hs]
    rw [hcorr]
    exact ⟨calculate_cn0_correlation_bounds sq _ hsq,
      fun c h2 hc => calculate_cn0_correlation_const sq _ c h2 hc⟩

/-- Claim C10 (witness): two acquired satellites with identical C/N0 40
yield a correlation proxy of exactly 1, within [0, 1]. -/
theorem c10_correlation_proxy_witness :
    0 ≤ (fun _ : ℚ => (0 : ℚ)) (listVariance
      ((([⟨1, 40, 0, 1⟩, ⟨2, 40, 0, 1⟩] : List GNSSSatellite).filter
        (fun s => 1 ≤ s.tracking_state)).map (fun s => s.cn0_dbhz))) ∧
    (0 ≤ (mkGNSSJammingMetrics (fun _ => 0) emptyHistory
        [⟨1, 40, 0, 1⟩, ⟨2, 40, 0, 1⟩]).1.cn0_correlation ∧
      (mkGNSSJammingMetrics (fun _ => 0) emptyHistory
        [⟨1, 40, 0, 1⟩, ⟨2, 40, 0, 1⟩]).1.cn0_correlation ≤ 1) ∧
    (mkGNSSJammingMetrics (fun _ => 0) emptyHistory
        [⟨1, 40, 0, 1⟩, ⟨2, 40, 0, 1⟩]).1.cn0_correlation = 1 :=
  ⟨by simp,
   (c10_correlation_proxy (fun _ => 0) emptyHistory
      [⟨1, 40, 0, 1⟩, ⟨2, 40, 0, 1⟩] (by simp)).1,
   (c10_correlation_proxy (fun _ => 0) emptyHistory
      [⟨1, 40, 0, 1⟩, ⟨2, 40, 0, 1⟩] (by simp)).2 40 (by decide) (by decide)⟩

set_option maxRecDepth 40000 in
set_option maxHeartbeats 4000000 in
/-- Claim C5: on `pulseBlock` (903 samples at 1000 S/s) the pulse detector
counts exactly 10 candidate edges — the absolute smoothed-power differences
are 892 zeros and 10 ones, the 99th percentile of that distribution is
0.99, and exactly the 10 ones exceed it — yet it reports
`detected = false`, because the source tests `num_pulses > 10` even though
its own comment (line 234, `# At least 10 pulses`) and the documented
behaviour require detection at 10 or more edges.  At exactly 10 edges the
code and its documentation diverge. -/
theorem c5_ten_edges_not_detected :
    (detect_pulse_jammer 1000 pulseBlock).num_pulses = 10 ∧
    (detect_pulse_jammer 1000 pulseBlock).detected = false := by
  have h1 : (pyInt ((1000 : ℚ) * (1 / 1000))).toNat = 1 := by decide
  constructor <;>
  · simp only [detect_pulse_jammer, h1, convolveSameOnes_one]
    decide

/-- Claim C2 (counterexample): a sample block of 1500 samples is shorter
than one FFT frame (`nperseg = 2048`), yet the spectrogram stage does not
fail with a `FormatError` — the numpy fallback computes a frame count of 0
and returns an empty spectrogram successfully, after which the detectors
run.  This refutes the claim that such inputs abort with `FormatError`
before any detector runs. -/
theorem c2_short_block_not_rejected :
    computeSpectrogramShape 2048 1024 1500 2048000 =
      Except.ok ((2048 : ℕ), (0 : ℕ)) := by rfl

/-- Claim C2 (amended): the spectrogram stage never produces a
`FormatError` for any input length; the only failure it can surface is
numpy's generic `ValueError`, which occurs exactly when the computed frame
count `(n - nperseg) // hop + 1` is negative.  In particular a
shorter-than-one-frame input is not necessarily rejected at all. -/
theorem c2_no_format_error (nperseg noverlap n : ℕ) (sr : ℚ) :
    computeSpectrogramShape nperseg noverlap n sr ≠
      Except.error SpectroError.formatError ∧
    (computeSpectrogramShape nperseg noverlap n sr =
        Except.error SpectroError.valueError ↔
      Int.fdiv ((n : ℤ) - (nperseg : ℤ)) ((nperseg - noverlap : ℕ) : ℤ) + 1 < 0) := by
  simp only [computeSpectrogramShape]
  refine ⟨?_, ?_, ?_⟩
  · split_ifs <;> simp
  · intro h
    by_contra hneg
    rw [if_neg hneg] at h
    revert h
    split_ifs <;> simp
  · intro h
    rw [if_pos h]

/-- Claim C4: an epoch with no tracked satellites yields a verdict whose
statistics (average/min/max C/N0, C/N0 standard deviation, average Doppler,
Doppler standard deviation, correlation proxy) are all zero and whose
`is_jammed` is false, for every prior history state; every average over
zero satellites defaults to 0 rather than faulting (the embedding is a
total function). -/
theorem c4_empty_epoch_zeroed_not_jammed (sq : ℚ → ℚ) (st : BridgeHistory) :
    (mkGNSSJammingMetrics sq st []).1.avg_cn0 = 0 ∧
    (mkGNSSJammingMetrics sq st []).1.min_cn0 = 0 ∧
    (mkGNSSJammingMetrics sq st []).1.max_cn0 = 0 ∧
    (mkGNSSJammingMetrics sq st []).1.cn0_std = 0 ∧
    (mkGNSSJammingMetrics sq st []).1.avg_doppler = 0 ∧
    (mkGNSSJammingMetrics sq st []).1.doppler_std = 0 ∧
    (mkGNSSJammingMetrics sq st []).1.cn0_correlation = 0 ∧
    (mkGNSSJammingMetrics sq st []).1.is_jammed = false := by
  simp [mkGNSSJammingMetrics, computeStats, calculate_cn0_variation]

/-- Claim C6 (counterexample): a 1-second block whose untrimmed time axis
has 10 bins of 100 ms each.  The trim step removes the first bin (the first
~100 ms) but keeps the last bin (time 0.9 s, covering the final 100 ms),
refuting the claim that the last ~100 ms of the time axis and power matrix
are also removed. -/
theorem c6_last_bins_kept :
    trimSpectrogram
      [0, 1/10, 2/10, 3/10, 4/10, 5/10, 6/10, 7/10, 8/10, 9/10]
      [[10, 20, 30, 40, 50, 60, 70, 80, 90, 100]] 1000 1000 =
    ([1/10, 2/10, 3/10, 4/10, 5/10, 6/10, 7/10, 8/10, 9/10],
     [[20, 30, 40, 50, 60, 70, 80, 90, 100]]) := by decide

/-- Claim C6 (amended): whenever the trim is applied at all
(`0 < trim_bins < len(t)`), exactly the first `trim_bins` time bins and
power columns are removed — the end of the time axis is untouched: the
output has `len(t) − trim_bins` bins and its last time bin equals the last
untrimmed time bin. -/
theorem c6_trim_drops_only_head (t : List ℚ) (rows : List (List ℚ))
    (numSamples : ℕ) (sr : ℚ)
    (h0 : 0 < trimBins t numSamples sr)
    (h1 : trimBins t numSamples sr < (t.length : ℤ)) :
    (trimSpectrogram t rows numSamples sr).1 =
      t.drop (trimBins t numSamples sr).toNat ∧
    (trimSpectrogram t rows numSamples sr).2 =
      rows.map (fun r => r.drop (trimBins t numSamples sr).toNat) ∧
    (trimSpectrogram t rows numSamples sr).1.length =
      t.length - (trimBins t numSamples sr).toNat ∧
    (trimSpectrogram t rows numSamples sr).1.getLast? = t.getLast? := by
  unfold trimSpectrogram
  rw [if_pos ⟨h0, h1⟩]
  refine ⟨rfl, rfl, by simp, ?_⟩
  rw [List.getLast?_drop, if_neg (by omega)]

/-- Claim C6 (witness): the amended trim theorem at the concrete 10-bin,
1-second input. -/
theorem c6_trim_witness :
    0 < trimBins [0, 1/10, 2/10, 3/10, 4/10, 5/10, 6/10, 7/10, 8/10, 9/10]
        1000 1000 ∧
    trimBins [0, 1/10, 2/10, 3/10, 4/10, 5/10, 6/10, 7/10, 8/10, 9/10]
        1000 1000 <
      (([0, 1/10, 2/10, 3/10, 4/10, 5/10, 6/10, 7/10, 8/10, 9/10] :
        List ℚ).length : ℤ) ∧
    ((trimSpectrogram [0, 1/10, 2/10, 3/10, 4/10, 5/10, 6/10, 7/10, 8/10, 9/10]
        [[10, 20, 30, 40, 50, 60, 70, 80, 90, 100]] 1000 1000).1 =
      ([0, 1/10, 2/10, 3/10, 4/10, 5/10, 6/10, 7/10, 8/10, 9/10] :
        List ℚ).drop
        (trimBins [0, 1/10, 2/10, 3/10, 4/10, 5/10, 6/10, 7/10, 8/10, 9/10]
          1000 1000).toNat ∧
     (trimSpectrogram [0, 1/10, 2/10, 3/10, 4/10, 5/10, 6/10, 7/10, 8/10, 9/10]
        [[10, 20, 30, 40, 50, 60, 70, 80, 90, 100]] 1000 1000).2 =
      ([[10, 20, 30, 40, 50, 60, 70, 80, 90, 100]] : List (List ℚ)).map
        (fun r => r.drop
          (trimBins [0, 1/10, 2/10, 3/10, 4/10, 5/10, 6/10, 7/10, 8/10, 9/10]
            1000 1000).toNat) ∧
     (trimSpectrogram [0, 1/10, 2/10, 3/10, 4/10, 5/10, 6/10, 7/10, 8/10, 9/10]
        [[10, 20, 30, 40, 50, 60, 70, 80, 90, 100]] 1000 1000).1.length =
      ([0, 1/10, 2/10, 3/10, 4/10, 5/10, 6/10, 7/10, 8/10, 9/10] :
        List ℚ).length -
        (trimBins [0, 1/10, 2/10, 3/10, 4/10, 5/10, 6/10, 7/10, 8/10, 9/10]
          1000 1000).toNat ∧
     (trimSpectrogram [0, 1/10, 2/10, 3/10, 4/10, 5/10, 6/10, 7/10, 8/10, 9/10]
        [[10, 20, 30, 40, 50, 60, 70, 80, 90, 100]] 1000 1000).1.getLast? =
      ([0, 1/10, 2/10, 3/10, 4/10, 5/10, 6/10, 7/10, 8/10, 9/10] :
        List ℚ).getLast?) :=
  ⟨by decide, by decide,
    c6_trim_drops_only_head
      [0, 1/10, 2/10, 3/10, 4/10, 5/10, 6/10, 7/10, 8/10, 9/10]
      [[10, 20, 30, 40, 50, 60, 70, 80, 90, 100]] 1000 1000
      (by decide) (by decide)⟩

/-- Claim C7: the meaconing detector declares detection exactly when the
estimated received power exceeds −120 dBm and the Doppler variation is
below 1000 Hz; when detected its confidence equals
`min(power_factor * static_factor, 0.95)` with
`power_factor = min((p+130)/30, 1)` and
`static_factor = max(0, (1000−dv)/1000)`; the confidence never exceeds
0.95. -/
theorem c7_meaconing_decision (p dv : ℚ) :
    ((detect_meaconing_decision p dv).detected = true ↔
      (-120 < p ∧ dv < 1000)) ∧
    ((detect_meaconing_decision p dv).detected = true →
      (detect_meaconing_decision p dv).confidence =
        min (min ((p + 130) / 30) 1 * max 0 ((1000 - dv) / 1000)) (95 / 100)) ∧
    (detect_meaconing_decision p dv).confidence ≤ 95 / 100 := by
  unfold detect_meaconing_decision
  split
  · next h1 =>
    split
    · next h2 =>
      exact ⟨by simp [h1, h2], fun _ => rfl, min_le_right _ _⟩
    · next h2 =>
      refine ⟨by simp [h2], by simp, by norm_num⟩
  · next h1 =>
    refine ⟨by simp [h1], by simp, by norm_num⟩

end WebSpectrum
